import Mathlib

/-!
Verification of the SigV4 request signer in
`source/api/chalicelib/sigv4.py` and the CloudFormation deployment helper
in `source/helper/website_helper.py`.

Python strings are embedded as Lean `String`s; byte sequences (the output
of `hashlib.sha256(...).digest()` and `hmac.new(...).digest()`) are
`List Nat` with every element below 256. `str.encode("utf-8")` is the
`utf8` function below. SHA-256 and HMAC-SHA256 are implemented in full
(FIPS 180-4 / RFC 2104) so that the hex digests the signer embeds in the
canonical request can be computed and checked against the constants the
specification names; the implementation is validated below against the
standard test vectors (empty string, "abc", RFC 4231) and, on the AWS
documentation key-derivation example inputs, against the value computed
independently with CPython hashlib/hmac.
-/

set_option maxRecDepth 100000

namespace AmcSigV4

/-- Truncate to 32 bits. -/
def m32 (n : Nat) : Nat := n % 4294967296

/-- 32-bit modular addition. -/
def add32 (a b : Nat) : Nat := m32 (a + b)

/-- Rotate a 32-bit word right by `n`. -/
def rotr (n x : Nat) : Nat := m32 ((x >>> n) ||| (x <<< (32 - n)))

/-- Logical right shift. -/
def shr (n x : Nat) : Nat := x >>> n

/-- SHA-256 Σ0. -/
def bigSigma0 (x : Nat) : Nat := (rotr 2 x) ^^^ (rotr 13 x) ^^^ (rotr 22 x)

/-- SHA-256 Σ1. -/
def bigSigma1 (x : Nat) : Nat := (rotr 6 x) ^^^ (rotr 11 x) ^^^ (rotr 25 x)

/-- SHA-256 σ0. -/
def smallSigma0 (x : Nat) : Nat := (rotr 7 x) ^^^ (rotr 18 x) ^^^ (shr 3 x)

/-- SHA-256 σ1. -/
def smallSigma1 (x : Nat) : Nat := (rotr 17 x) ^^^ (rotr 19 x) ^^^ (shr 10 x)

/-- SHA-256 choice function. -/
def ch (x y z : Nat) : Nat := (x &&& y) ^^^ ((4294967295 ^^^ x) &&& z)

/-- SHA-256 majority function. -/
def maj (x y z : Nat) : Nat := (x &&& y) ^^^ (x &&& z) ^^^ (y &&& z)

/-- The 64 SHA-256 round constants (FIPS 180-4, here in decimal). -/
def roundK : List Nat :=
  [1116352408, 1899447441, 3049323471, 3921009573, 961987163,
   1508970993, 2453635748, 2870763221, 3624381080, 310598401,
   607225278, 1426881987, 1925078388, 2162078206, 2614888103,
   3248222580, 3835390401, 4022224774, 264347078, 604807628,
   770255983, 1249150122, 1555081692, 1996064986, 2554220882,
   2821834349, 2952996808, 3210313671, 3336571891, 3584528711,
   113926993, 338241895, 666307205, 773529912, 1294757372,
   1396182291, 1695183700, 1986661051, 2177026350, 2456956037,
   2730485921, 2820302411, 3259730800, 3345764771, 3516065817,
   3600352804, 4094571909, 275423344, 430227734, 506948616,
   659060556, 883997877, 958139571, 1322822218, 1537002063,
   1747873779, 1955562222, 2024104815, 2227730452, 2361852424,
   2428436474, 2756734187, 3204031479, 3329325298]

/-- The SHA-256 working state: eight 32-bit words. -/
structure Hash8 where
  a : Nat
  b : Nat
  c : Nat
  d : Nat
  e : Nat
  f : Nat
  g : Nat
  h : Nat

/-- The SHA-256 initial hash value (FIPS 180-4, here in decimal). -/
def initH : Hash8 :=
  ⟨1779033703, 3144134277, 1013904242, 2773480762,
   1359893119, 2600822924, 528734635, 1541459225⟩

/-- One SHA-256 compression round, fed a (round constant, schedule word) pair. -/
def roundStep (s : Hash8) (kw : Nat × Nat) : Hash8 :=
  let t1 := add32 s.h (add32 (bigSigma1 s.e) (add32 (ch s.e s.f s.g) (add32 kw.1 kw.2)))
  let t2 := add32 (bigSigma0 s.a) (maj s.a s.b s.c)
  ⟨add32 t1 t2, s.a, s.b, s.c, add32 s.d t1, s.e, s.f, s.g⟩

/-- Extend the 16-word block to the 64-word message schedule,
appending `fuel` further words. -/
def extendSchedule (w : List Nat) : Nat → List Nat
  | 0 => w
  | n + 1 =>
    let i := w.length
    let nw := add32 (smallSigma1 (w.getD (i - 2) 0))
      (add32 (w.getD (i - 7) 0)
        (add32 (smallSigma0 (w.getD (i - 15) 0)) (w.getD (i - 16) 0)))
    extendSchedule (w ++ [nw]) n

/-- Compress one 16-word block into the running hash state. -/
def compressBlock (h0 : Hash8) (block : List Nat) : Hash8 :=
  let w := extendSchedule block 48
  let s := (roundK.zip w).foldl roundStep h0
  ⟨add32 h0.a s.a, add32 h0.b s.b, add32 h0.c s.c, add32 h0.d s.d,
   add32 h0.e s.e, add32 h0.f s.f, add32 h0.g s.g, add32 h0.h s.h⟩

/-- Big-endian 32-bit words from bytes, four at a time. -/
def bytesToWords : List Nat → List Nat
  | b0 :: b1 :: b2 :: b3 :: rest =>
    (b0 * 16777216 + b1 * 65536 + b2 * 256 + b3) :: bytesToWords rest
  | _ => []

/-- Split a word list into 16-word blocks. -/
def chunks16 : List Nat → List (List Nat)
  | w0 :: w1 :: w2 :: w3 :: w4 :: w5 :: w6 :: w7 ::
    w8 :: w9 :: w10 :: w11 :: w12 :: w13 :: w14 :: w15 :: rest =>
    [w0, w1, w2, w3, w4, w5, w6, w7, w8, w9, w10, w11, w12, w13, w14, w15]
      :: chunks16 rest
  | _ => []

/-- The bit length of the message as eight big-endian bytes. -/
def lengthBytes64 (n : Nat) : List Nat :=
  [(n >>> 56) % 256, (n >>> 48) % 256, (n >>> 40) % 256, (n >>> 32) % 256,
   (n >>> 24) % 256, (n >>> 16) % 256, (n >>> 8) % 256, n % 256]

/-- SHA-256 padding: a 0x80 byte, zeros to 56 mod 64, then the bit length. -/
def padMsg (msg : List Nat) : List Nat :=
  let l := msg.length
  let zeros := (64 - ((l + 9) % 64)) % 64
  msg ++ [128] ++ List.replicate zeros 0 ++ lengthBytes64 (l * 8)

/-- A 32-bit word as four big-endian bytes. -/
def wordBytes (w : Nat) : List Nat :=
  [(w >>> 24) % 256, (w >>> 16) % 256, (w >>> 8) % 256, w % 256]

/-- SHA-256 of a byte sequence, as the 32 digest bytes. -/
def sha256 (msg : List Nat) : List Nat :=
  let hh := (chunks16 (bytesToWords (padMsg msg))).foldl compressBlock initH
  wordBytes hh.a ++ wordBytes hh.b ++ wordBytes hh.c ++ wordBytes hh.d ++
  wordBytes hh.e ++ wordBytes hh.f ++ wordBytes hh.g ++ wordBytes hh.h

/-- HMAC-SHA256 (RFC 2104) of a message under a key, as the 32 digest bytes. -/
def hmacSha256 (key msg : List Nat) : List Nat :=
  let k0 := if key.length > 64 then sha256 key else key
  let k1 := k0 ++ List.replicate (64 - k0.length) 0
  let ipadKey := k1.map (fun b => b ^^^ 0x36)
  let opadKey := k1.map (fun b => b ^^^ 0x5c)
  sha256 (opadKey ++ sha256 (ipadKey ++ msg))

/-- One hex digit, lowercase, of the low four bits of the input. -/
def hexDigitChar (n : Nat) : Char :=
  match n % 16 with
  | 0 => '0' | 1 => '1' | 2 => '2' | 3 => '3'
  | 4 => '4' | 5 => '5' | 6 => '6' | 7 => '7'
  | 8 => '8' | 9 => '9' | 10 => 'a' | 11 => 'b'
  | 12 => 'c' | 13 => 'd' | 14 => 'e' | _ => 'f'

/-- Lowercase hex encoding of a byte sequence (each byte is below 256, so
`b / 16` is its high nibble); this is Python `.hexdigest()`. -/
def hexOfBytes (bs : List Nat) : String :=
  ⟨bs.flatMap (fun b => [hexDigitChar (b / 16), hexDigitChar b])⟩

/-- UTF-8 encoding of one Unicode scalar value. -/
def utf8Char (c : Char) : List Nat :=
  let n := c.toNat
  if n < 128 then [n]
  else if n < 2048 then [192 ||| (n >>> 6), 128 ||| (n &&& 63)]
  else if n < 65536 then
    [224 ||| (n >>> 12), 128 ||| ((n >>> 6) &&& 63), 128 ||| (n &&& 63)]
  else
    [240 ||| (n >>> 18), 128 ||| ((n >>> 12) &&& 63),
     128 ||| ((n >>> 6) &&& 63), 128 ||| (n &&& 63)]

/-- UTF-8 encoding of a string; Python `str.encode("utf-8")`. -/
def utf8 (s : String) : List Nat := s.data.flatMap utf8Char

/-- Python `str.split(sep)` for a one-character separator, on char lists:
consecutive separators yield empty fields, and the empty string yields
one empty field. -/
def splitOnChar (sep : Char) : List Char → List (List Char)
  | [] => [[]]
  | c :: cs =>
    match splitOnChar sep cs with
    | [] => [[]]
    | g :: gs => if c = sep then [] :: g :: gs else (c :: g) :: gs

/-- Python `str.split(sep)` for a one-character separator. -/
def pySplit (s : String) (sep : Char) : List String :=
  (splitOnChar sep s.data).map String.mk

/-- Python `sep.join(parts)`. -/
def joinSep (sep : String) : List String → String
  | [] => ""
  | [x] => x
  | x :: y :: xs => x ++ sep ++ joinSep sep (y :: xs)

/-- Module constant `SIGNED_HEADERS` from `sigv4.py`. -/
def SIGNED_HEADERS : String := "host;x-amz-date;x-amz-security-token"

/-- `sign(key, msg)` from `sigv4.py`:
`hmac.new(key, msg.encode("utf-8"), hashlib.sha256).digest()`. -/
def sign (key : List Nat) (msg : String) : List Nat :=
  hmacSha256 key (utf8 msg)

/-- `get_signature_key` from `sigv4.py`: the four-step SigV4 HMAC chain,
returning the raw digest bytes of the last step. -/
def get_signature_key (key date_stamp region_name service_name : String) : List Nat :=
  let kdate := sign (utf8 ("AWS4" ++ key)) date_stamp
  let kregion := sign kdate region_name
  let kservice := sign kregion service_name
  let ksigning := sign kservice "aws4_request"
  ksigning

/-- `get_canonical_headers` from `sigv4.py`. -/
def get_canonical_headers (domain_name amzdate session_token : String) : String :=
  "host:" ++ domain_name ++ "\nx-amz-date:" ++ amzdate ++
    "\nx-amz-security-token:" ++ session_token ++ "\n"

/-- `get_authorization_header` from `sigv4.py`. -/
def get_authorization_header
    (algorithm access_key credential_scope signed_headers signature : String) :
    String :=
  algorithm ++ " Credential=" ++ access_key ++ "/" ++ credential_scope ++
    ", SignedHeaders=" ++ signed_headers ++ ", Signature=" ++ signature

/-- The configuration `sigv4.py` reads from environment variables at module
load: `AMC_ENDPOINT_URL`, `AWS_REGION`, `SOLUTION_NAME`, `VERSION`. -/
structure Env where
  amc_endpoint : String
  aws_region : String
  solution_name : String
  solution_version : String

/-- The credentials `get_amc_api_tokens` returns from the assumed role.
The access and secret key are `Option` so the `is None` checks in
`get`/`post`/`delete` can be modelled; Python `None` is `none`. -/
structure Credentials where
  access_key : Option String
  secret_key : Option String
  session_token : String

/-- The two timestamp strings each operation derives from one
`datetime.datetime.utcnow()` instant: `amzdate` (`%Y%m%dT%H%M%SZ`) and
`datestamp` (`%Y%m%d`). -/
structure Clock where
  amzdate : String
  datestamp : String

/-- The ways an operation in `sigv4.py` aborts before dispatching a request:
`indexError` is the `IndexError` raised by `endpoint.split("/")[2]` when the
endpoint has fewer than three `/`-separated parts (the spec's
`EncodingError`), and `noAccessKey` is the `sys.exit()` taken when the
access key or secret key is `None` (the spec's `PreconditionError`). -/
inductive SigError where
  | indexError
  | noAccessKey
deriving DecidableEq

/-- Everything one `get`/`post`/`delete` call computes: the named
intermediates of the signing pipeline, and the URL, headers, method and
body handed to `send_request`. -/
structure SignedCall where
  domain_name : String
  canonical_uri : String
  canonical_querystring : String
  canonical_headers : String
  signed_headers : String
  payload_hash : String
  canonical_request : String
  credential_scope : String
  string_to_sign : String
  signing_key : List Nat
  signature : String
  authorization_header : String
  headers : List (String × String)
  request_url : String
  http_method : String
  data : Option String
deriving DecidableEq

/-- The signing pipeline of `delete(path)` in `sigv4.py` (lines 120–224),
once the domain has been extracted and both keys are present. Each `let`
mirrors the like-named local of the source. -/
def deleteCall (env : Env) (creds : Credentials) (clk : Clock)
    (path domain_name access_key secret_key : String) : SignedCall :=
  let method := "DELETE"
  let service := "execute-api"
  let region := env.aws_region
  let endpoint := env.amc_endpoint ++ path
  let amzdate := clk.amzdate
  let datestamp := clk.datestamp
  let canonical_uri := "/" ++ joinSep "/" ((pySplit endpoint '/').drop 3)
  let canonical_querystring := ""
  let canonical_headers :=
    get_canonical_headers domain_name amzdate creds.session_token
  let signed_headers := SIGNED_HEADERS
  let payload_hash := hexOfBytes (sha256 (utf8 ""))
  let canonical_request :=
    method ++ "\n" ++ canonical_uri ++ "\n" ++ canonical_querystring ++ "\n" ++
      canonical_headers ++ "\n" ++ signed_headers ++ "\n" ++ payload_hash
  let algorithm := "AWS4-HMAC-SHA256"
  let credential_scope :=
    datestamp ++ "/" ++ region ++ "/" ++ service ++ "/" ++ "aws4_request"
  let string_to_sign :=
    algorithm ++ "\n" ++ amzdate ++ "\n" ++ credential_scope ++ "\n" ++
      hexOfBytes (sha256 (utf8 canonical_request))
  let signing_key := get_signature_key secret_key datestamp region service
  let signature := hexOfBytes (hmacSha256 signing_key (utf8 string_to_sign))
  let authorization_header :=
    get_authorization_header algorithm access_key credential_scope
      signed_headers signature
  { domain_name, canonical_uri, canonical_querystring, canonical_headers,
    signed_headers, payload_hash, canonical_request, credential_scope,
    string_to_sign, signing_key, signature, authorization_header,
    headers := [("Authorization", authorization_header),
                ("x-amz-date", amzdate),
                ("x-amz-security-token", creds.session_token),
                ("x-amzn-service-name", env.solution_name),
                ("x-amzn-service-version", env.solution_version)],
    request_url := endpoint, http_method := "delete", data := none }

/-- `delete(path)` from `sigv4.py`. `endpoint.split("/")[2]` (line 112) runs
before the credential check (line 116), so a malformed endpoint raises
`IndexError` first; then `sys.exit()` fires when either key `is None`;
otherwise the request is signed and dispatched. -/
def delete (env : Env) (creds : Credentials) (clk : Clock) (path : String) :
    Except SigError SignedCall :=
  match (pySplit (env.amc_endpoint ++ path) '/').get? 2 with
  | none => .error SigError.indexError
  | some domain_name =>
    match creds.access_key, creds.secret_key with
    | some access_key, some secret_key =>
      .ok (deleteCall env creds clk path domain_name access_key secret_key)
    | _, _ => .error SigError.noAccessKey

/-- The signing pipeline of `get(path, request_parameters)` in `sigv4.py`
(lines 242–347): as `deleteCall`, except the method is `GET`, the canonical
query string is the caller-supplied `request_parameters`, and the dispatched
URL is `f"{endpoint}?{canonical_querystring}"`. -/
def getCall (env : Env) (creds : Credentials) (clk : Clock)
    (path request_parameters domain_name access_key secret_key : String) :
    SignedCall :=
  let method := "GET"
  let service := "execute-api"
  let region := env.aws_region
  let endpoint := env.amc_endpoint ++ path
  let amzdate := clk.amzdate
  let datestamp := clk.datestamp
  let canonical_uri := "/" ++ joinSep "/" ((pySplit endpoint '/').drop 3)
  let canonical_querystring := request_parameters
  let canonical_headers :=
    get_canonical_headers domain_name amzdate creds.session_token
  let signed_headers := SIGNED_HEADERS
  let payload_hash := hexOfBytes (sha256 (utf8 ""))
  let canonical_request :=
    method ++ "\n" ++ canonical_uri ++ "\n" ++ canonical_querystring ++ "\n" ++
      canonical_headers ++ "\n" ++ signed_headers ++ "\n" ++ payload_hash
  let algorithm := "AWS4-HMAC-SHA256"
  let credential_scope :=
    datestamp ++ "/" ++ region ++ "/" ++ service ++ "/" ++ "aws4_request"
  let string_to_sign :=
    algorithm ++ "\n" ++ amzdate ++ "\n" ++ credential_scope ++ "\n" ++
      hexOfBytes (sha256 (utf8 canonical_request))
  let signing_key := get_signature_key secret_key datestamp region service
  let signature := hexOfBytes (hmacSha256 signing_key (utf8 string_to_sign))
  let authorization_header :=
    get_authorization_header algorithm access_key credential_scope
      signed_headers signature
  { domain_name, canonical_uri, canonical_querystring, canonical_headers,
    signed_headers, payload_hash, canonical_request, credential_scope,
    string_to_sign, signing_key, signature, authorization_header,
    headers := [("Authorization", authorization_header),
                ("x-amz-date", amzdate),
                ("x-amz-security-token", creds.session_token),
                ("x-amzn-service-name", env.solution_name),
                ("x-amzn-service-version", env.solution_version)],
    request_url := endpoint ++ "?" ++ canonical_querystring,
    http_method := "get", data := none }

/-- `get(path, request_parameters="")` from `sigv4.py`, with the same
pre-dispatch failure order as `delete`. -/
def get (env : Env) (creds : Credentials) (clk : Clock)
    (path request_parameters : String) : Except SigError SignedCall :=
  match (pySplit (env.amc_endpoint ++ path) '/').get? 2 with
  | none => .error SigError.indexError
  | some domain_name =>
    match creds.access_key, creds.secret_key with
    | some access_key, some secret_key =>
      .ok (getCall env creds clk path request_parameters domain_name
        access_key secret_key)
    | _, _ => .error SigError.noAccessKey

/-- The signing pipeline of `post(path, body_data)` in `sigv4.py`
(lines 365–471): as `deleteCall`, except the method is `POST`, the payload
hash is over `body_data.encode("utf-8")`, and `body_data` is passed to
`send_request` as the request body. -/
def postCall (env : Env) (creds : Credentials) (clk : Clock)
    (path body_data domain_name access_key secret_key : String) : SignedCall :=
  let method := "POST"
  let service := "execute-api"
  let region := env.aws_region
  let endpoint := env.amc_endpoint ++ path
  let amzdate := clk.amzdate
  let datestamp := clk.datestamp
  let canonical_uri := "/" ++ joinSep "/" ((pySplit endpoint '/').drop 3)
  let canonical_querystring := ""
  let canonical_headers :=
    get_canonical_headers domain_name amzdate creds.session_token
  let signed_headers := SIGNED_HEADERS
  let payload_hash := hexOfBytes (sha256 (utf8 body_data))
  let canonical_request :=
    method ++ "\n" ++ canonical_uri ++ "\n" ++ canonical_querystring ++ "\n" ++
      canonical_headers ++ "\n" ++ signed_headers ++ "\n" ++ payload_hash
  let algorithm := "AWS4-HMAC-SHA256"
  let credential_scope :=
    datestamp ++ "/" ++ region ++ "/" ++ service ++ "/" ++ "aws4_request"
  let string_to_sign :=
    algorithm ++ "\n" ++ amzdate ++ "\n" ++ credential_scope ++ "\n" ++
      hexOfBytes (sha256 (utf8 canonical_request))
  let signing_key := get_signature_key secret_key datestamp region service
  let signature := hexOfBytes (hmacSha256 signing_key (utf8 string_to_sign))
  let authorization_header :=
    get_authorization_header algorithm access_key credential_scope
      signed_headers signature
  { domain_name, canonical_uri, canonical_querystring, canonical_headers,
    signed_headers, payload_hash, canonical_request, credential_scope,
    string_to_sign, signing_key, signature, authorization_header,
    headers := [("Authorization", authorization_header),
                ("x-amz-date", amzdate),
                ("x-amz-security-token", creds.session_token),
                ("x-amzn-service-name", env.solution_name),
                ("x-amzn-service-version", env.solution_version)],
    request_url := endpoint, http_method := "post", data := some body_data }

/-- `post(path, body_data)` from `sigv4.py`, with the same pre-dispatch
failure order as `delete`. -/
def post (env : Env) (creds : Credentials) (clk : Clock)
    (path body_data : String) : Except SigError SignedCall :=
  match (pySplit (env.amc_endpoint ++ path) '/').get? 2 with
  | none => .error SigError.indexError
  | some domain_name =>
    match creds.access_key, creds.secret_key with
    | some access_key, some secret_key =>
      .ok (postCall env creds clk path body_data domain_name access_key
        secret_key)
    | _, _ => .error SigError.noAccessKey

/-- The body `send_request` actually attaches: the Python `if data:` guard
drops a `None` or empty-string body. -/
def sentBody (data : Option String) : Option String :=
  match data with
  | some d => if d = "" then none else some d
  | none => none

/-- Whether a character is a lowercase hexadecimal digit. -/
def isLowerHexChar (c : Char) : Bool := ("0123456789abcdef".data).contains c

/-- A sample configuration for concrete evaluations. -/
def sampleEnv : Env :=
  { amc_endpoint := "https://h/p", aws_region := "us-east-1",
    solution_name := "amcufa", solution_version := "2.0.0" }

/-- A sample configuration whose endpoint has fewer than three
`/`-separated parts, so `endpoint.split("/")[2]` raises `IndexError`. -/
def sampleEnvBad : Env :=
  { amc_endpoint := "not-a-url", aws_region := "us-east-1",
    solution_name := "amcufa", solution_version := "2.0.0" }

/-- Sample complete credentials. -/
def sampleCreds : Credentials :=
  { access_key := some "AKIDEXAMPLE", secret_key := some "SECRET",
    session_token := "TOKEN" }

/-- Sample credentials whose keys are present but empty strings. -/
def sampleCredsEmpty : Credentials :=
  { access_key := some "", secret_key := some "", session_token := "TOKEN" }

/-- Sample credentials whose access key is Python `None`. -/
def sampleCredsNone : Credentials :=
  { access_key := none, secret_key := some "SECRET", session_token := "TOKEN" }

/-- A sample signing instant. -/
def sampleClock : Clock :=
  { amzdate := "20150830T123600Z", datestamp := "20150830" }

end AmcSigV4

namespace WebsiteHelper

/-- A status value passed to `send_response` in `website_helper.py`. -/
inductive CfnStatus where
  | SUCCESS
  | FAILED
deriving DecidableEq

/-- The `ResourceProperties` fields `copy_source` reads from the
CloudFormation event; a `none` field is an absent dictionary key, whose
lookup raises `KeyError`. -/
structure CfnEvent where
  websiteCodeBucket : Option String
  websiteCodePrefix : Option String
  deploymentBucket : Option String

/-- The control flow of `copy_source(event, context)` in
`website_helper.py`, observed as the sequence of statuses it sends to
CloudFormation via `send_response`, in order. The S3 copy loop itself is
external I/O; `copyRaises` is `true` when it raises an exception (which the
inner `except Exception` turns into a `FAILED` response). After that
try/except, `send_response(..., "SUCCESS", ...)` runs unconditionally
whenever field extraction succeeded. -/
def copy_source (ev : CfnEvent) (copyRaises : Bool) : List CfnStatus :=
  match ev.websiteCodeBucket, ev.websiteCodePrefix, ev.deploymentBucket with
  | some _, some _, some _ =>
    (if copyRaises then [CfnStatus.FAILED] else []) ++ [CfnStatus.SUCCESS]
  | _, _, _ => [CfnStatus.FAILED]

/-- A sample event carrying all three required `ResourceProperties`. -/
def sampleEvent : CfnEvent :=
  { websiteCodeBucket := some "code-bucket", websiteCodePrefix := some "web",
    deploymentBucket := some "site.example.com" }

end WebsiteHelper

namespace AmcSigV4

/-- SHA-256 of the empty input is the well-known constant digest. -/
theorem sha256_empty_hex :
    hexOfBytes (sha256 (utf8 "")) =
      "e3b0c44298fc1c149afbf4c8996fb92427ae41e4649b934ca495991b7852b855" := by
  decide

/-- FIPS 180-4 test vector: SHA-256 of "abc". -/
theorem sha256_abc_hex :
    hexOfBytes (sha256 (utf8 "abc")) =
      "ba7816bf8f01cfea414140de5dae2223b00361a396177a9cb410ff61f20015ad" := by
  decide

/-- RFC 4231 test case 2: HMAC-SHA256 with key "Jefe". -/
theorem hmac_rfc4231_tc2 :
    hexOfBytes (hmacSha256 (utf8 "Jefe") (utf8 "what do ya want for nothing?")) =
      "5bdcc146bf60754e6a042426089575c75a003f089d2739839dec58b964ec3843" := by
  decide

/-- The derived key for the AWS documentation example inputs (secret
`wJalr...`, date 20150830, region us-east-1, service iam), equal to the
value computed independently with CPython hashlib/hmac. -/
theorem get_signature_key_aws_example :
    hexOfBytes (get_signature_key "wJalrXUtnFEMI/K7MDENG/bPxRfiCYEXAMPLEKEY"
        "20150830" "us-east-1" "iam") =
      "2c94c0cf5378ada6887f09bb697df8fc0affdb34ba1cdd5bda32b664bd55b73c" := by
  decide

/-- A SHA-256 digest is 32 bytes. -/
theorem sha256_length (msg : List Nat) : (sha256 msg).length = 32 := by
  simp [sha256, wordBytes]

/-- An HMAC-SHA256 digest is 32 bytes. -/
theorem hmacSha256_length (key msg : List Nat) :
    (hmacSha256 key msg).length = 32 :=
  sha256_length _

/-- Every byte of a big-endian word decomposition is below 256. -/
theorem wordBytes_lt (w : Nat) : ∀ b ∈ wordBytes w, b < 256 := by
  intro b hb
  simp [wordBytes] at hb
  rcases hb with rfl | rfl | rfl | rfl <;> exact Nat.mod_lt _ (by decide)

/-- Every byte of a SHA-256 digest is below 256. -/
theorem sha256_byte_lt (msg : List Nat) : ∀ b ∈ sha256 msg, b < 256 := by
  intro b hb
  simp only [sha256, List.mem_append] at hb
  rcases hb with ((((((h | h) | h) | h) | h) | h) | h) | h <;>
    exact wordBytes_lt _ _ h

/-- Hex encoding doubles the length. -/
theorem hexOfBytes_length (bs : List Nat) :
    (hexOfBytes bs).length = 2 * bs.length := by
  induction bs with
  | nil => rfl
  | cons b t ih =>
    have hstep : (hexOfBytes (b :: t)).length = (hexOfBytes t).length + 2 := rfl
    rw [hstep, ih]
    simp only [List.length_cons]
    omega

/-- Every character `hexDigitChar` emits is a lowercase hex digit. -/
theorem hexDigitChar_lower (n : Nat) :
    isLowerHexChar (hexDigitChar n) = true := by
  unfold hexDigitChar
  split <;> decide

/-- Every character of a hex encoding is a lowercase hex digit. -/
theorem hexOfBytes_lower (bs : List Nat) :
    (hexOfBytes bs).data.all isLowerHexChar = true := by
  induction bs with
  | nil => rfl
  | cons b t ih =>
    have hstep :
        (hexOfBytes (b :: t)).data =
          hexDigitChar (b / 16) :: hexDigitChar b :: (hexOfBytes t).data := rfl
    rw [hstep]
    simp only [List.all_cons, Bool.and_eq_true]
    exact ⟨hexDigitChar_lower _, hexDigitChar_lower _, ih⟩

/-- When the endpoint splits and both keys are present, `delete` dispatches
the signed request described by `deleteCall`. -/
theorem delete_ok (env : Env) (creds : Credentials) (clk : Clock)
    (path d ak sk : String)
    (hd : (pySplit (env.amc_endpoint ++ path) '/').get? 2 = some d)
    (hak : creds.access_key = some ak) (hsk : creds.secret_key = some sk) :
    delete env creds clk path =
      .ok (deleteCall env creds clk path d ak sk) := by
  unfold delete
  rw [hd, hak, hsk]

/-- When the endpoint splits and both keys are present, `get` dispatches
the signed request described by `getCall`. -/
theorem get_ok (env : Env) (creds : Credentials) (clk : Clock)
    (path rp d ak sk : String)
    (hd : (pySplit (env.amc_endpoint ++ path) '/').get? 2 = some d)
    (hak : creds.access_key = some ak) (hsk : creds.secret_key = some sk) :
    get env creds clk path rp =
      .ok (getCall env creds clk path rp d ak sk) := by
  unfold get
  rw [hd, hak, hsk]

/-- When the endpoint splits and both keys are present, `post` dispatches
the signed request described by `postCall`. -/
theorem post_ok (env : Env) (creds : Credentials) (clk : Clock)
    (path body d ak sk : String)
    (hd : (pySplit (env.amc_endpoint ++ path) '/').get? 2 = some d)
    (hak : creds.access_key = some ak) (hsk : creds.secret_key = some sk) :
    post env creds clk path body =
      .ok (postCall env creds clk path body d ak sk) := by
  unfold post
  rw [hd, hak, hsk]

/-- C1: `get_signature_key` returns exactly the four-step HMAC-SHA256 chain
kDate = HMAC("AWS4"+secretKey, dateStamp), kRegion = HMAC(kDate, region),
kService = HMAC(kRegion, service), kSigning = HMAC(kService,
"aws4_request"), and the returned value is the raw digest bytes of the last
step (a byte list, not a hex string). -/
theorem claim_C1 (key date_stamp region_name service_name : String) :
    get_signature_key key date_stamp region_name service_name =
      hmacSha256 (hmacSha256 (hmacSha256 (hmacSha256
        (utf8 ("AWS4" ++ key)) (utf8 date_stamp)) (utf8 region_name))
        (utf8 service_name)) (utf8 "aws4_request") := rfl

/-- C2: the canonical headers block is exactly
`host:<domain>\nx-amz-date:<amzdate>\nx-amz-security-token:<token>\n`, its
header names are lowercase and in strictly ascending code-point order, and
in the canonical request assembled by each operation the block (which ends
in `\n`) is followed by a single `\n` before the signed-headers field, so
exactly one blank line separates them. -/
theorem claim_C2 (env : Env) (creds : Credentials) (clk : Clock)
    (path rp body d ak sk : String)
    (hd : (pySplit (env.amc_endpoint ++ path) '/').get? 2 = some d)
    (hak : creds.access_key = some ak) (hsk : creds.secret_key = some sk) :
    get_canonical_headers d clk.amzdate creds.session_token =
      "host:" ++ d ++ "\nx-amz-date:" ++ clk.amzdate ++
        "\nx-amz-security-token:" ++ creds.session_token ++ "\n"
    ∧ ("host".data < "x-amz-date".data ∧
        "x-amz-date".data < "x-amz-security-token".data)
    ∧ ("host".data.all (fun c => c.isLower || c == '-') = true
        ∧ "x-amz-date".data.all (fun c => c.isLower || c == '-') = true
        ∧ "x-amz-security-token".data.all (fun c => c.isLower || c == '-')
            = true)
    ∧ delete env creds clk path = .ok (deleteCall env creds clk path d ak sk)
    ∧ (deleteCall env creds clk path d ak sk).canonical_headers =
        get_canonical_headers d clk.amzdate creds.session_token
    ∧ (deleteCall env creds clk path d ak sk).canonical_request =
        "DELETE" ++ "\n" ++ (deleteCall env creds clk path d ak sk).canonical_uri
          ++ "\n" ++ (deleteCall env creds clk path d ak sk).canonical_querystring
          ++ "\n" ++ (deleteCall env creds clk path d ak sk).canonical_headers
          ++ "\n" ++ (deleteCall env creds clk path d ak sk).signed_headers
          ++ "\n" ++ (deleteCall env creds clk path d ak sk).payload_hash
    ∧ (getCall env creds clk path rp d ak sk).canonical_request =
        "GET" ++ "\n" ++ (getCall env creds clk path rp d ak sk).canonical_uri
          ++ "\n" ++ (getCall env creds clk path rp d ak sk).canonical_querystring
          ++ "\n" ++ (getCall env creds clk path rp d ak sk).canonical_headers
          ++ "\n" ++ (getCall env creds clk path rp d ak sk).signed_headers
          ++ "\n" ++ (getCall env creds clk path rp d ak sk).payload_hash
    ∧ (getCall env creds clk path rp d ak sk).canonical_headers =
        get_canonical_headers d clk.amzdate creds.session_token
    ∧ (postCall env creds clk path body d ak sk).canonical_request =
        "POST" ++ "\n" ++ (postCall env creds clk path body d ak sk).canonical_uri
          ++ "\n" ++ (postCall env creds clk path body d ak sk).canonical_querystring
          ++ "\n" ++ (postCall env creds clk path body d ak sk).canonical_headers
          ++ "\n" ++ (postCall env creds clk path body d ak sk).signed_headers
          ++ "\n" ++ (postCall env creds clk path body d ak sk).payload_hash
    ∧ (postCall env creds clk path body d ak sk).canonical_headers =
        get_canonical_headers d clk.amzdate creds.session_token :=
  ⟨rfl, ⟨by decide, by decide⟩, ⟨by decide, by decide, by decide⟩,
    delete_ok env creds clk path d ak sk hd hak hsk,
    rfl, rfl, rfl, rfl, rfl, rfl⟩

/-- C2 witness: a concrete call satisfying the hypotheses of `claim_C2`. -/
theorem claim_C2_witness :
    (pySplit (sampleEnv.amc_endpoint ++ "") '/').get? 2 = some "h"
    ∧ sampleCreds.access_key = some "AKIDEXAMPLE"
    ∧ sampleCreds.secret_key = some "SECRET"
    ∧ delete sampleEnv sampleCreds sampleClock "" =
        .ok (deleteCall sampleEnv sampleCreds sampleClock "" "h" "AKIDEXAMPLE"
          "SECRET") :=
  ⟨by decide, rfl, rfl,
    (claim_C2 sampleEnv sampleCreds sampleClock "" "" "" "h" "AKIDEXAMPLE"
      "SECRET" (by decide) rfl rfl).2.2.2.1⟩

/-- C3: the payload hash is the SHA-256 hex digest of the empty byte
sequence (the constant `e3b0c4...`) for `get` and `delete`, and for `post`
it is the SHA-256 hex digest of the UTF-8 bytes of the body, treated as
opaque bytes. -/
theorem claim_C3 (env : Env) (creds : Credentials) (clk : Clock)
    (path rp body d ak sk : String)
    (hd : (pySplit (env.amc_endpoint ++ path) '/').get? 2 = some d)
    (hak : creds.access_key = some ak) (hsk : creds.secret_key = some sk) :
    delete env creds clk path = .ok (deleteCall env creds clk path d ak sk)
    ∧ (deleteCall env creds clk path d ak sk).payload_hash =
        "e3b0c44298fc1c149afbf4c8996fb92427ae41e4649b934ca495991b7852b855"
    ∧ get env creds clk path rp = .ok (getCall env creds clk path rp d ak sk)
    ∧ (getCall env creds clk path rp d ak sk).payload_hash =
        "e3b0c44298fc1c149afbf4c8996fb92427ae41e4649b934ca495991b7852b855"
    ∧ post env creds clk path body =
        .ok (postCall env creds clk path body d ak sk)
    ∧ (postCall env creds clk path body d ak sk).payload_hash =
        hexOfBytes (sha256 (utf8 body)) :=
  ⟨delete_ok env creds clk path d ak sk hd hak hsk, sha256_empty_hex,
    get_ok env creds clk path rp d ak sk hd hak hsk, sha256_empty_hex,
    post_ok env creds clk path body d ak sk hd hak hsk, rfl⟩

/-- C3 witness: a concrete call satisfying the hypotheses of `claim_C3`. -/
theorem claim_C3_witness :
    (pySplit (sampleEnv.amc_endpoint ++ "") '/').get? 2 = some "h"
    ∧ sampleCreds.access_key = some "AKIDEXAMPLE"
    ∧ sampleCreds.secret_key = some "SECRET"
    ∧ (deleteCall sampleEnv sampleCreds sampleClock "" "h" "AKIDEXAMPLE"
        "SECRET").payload_hash =
        "e3b0c44298fc1c149afbf4c8996fb92427ae41e4649b934ca495991b7852b855" :=
  ⟨by decide, rfl, rfl,
    (claim_C3 sampleEnv sampleCreds sampleClock "" "" "{}" "h" "AKIDEXAMPLE"
      "SECRET" (by decide) rfl rfl).2.1⟩

/-- The hex encoding of an HMAC-SHA256 digest has 64 characters. -/
theorem hexHmac_length (key msg : List Nat) :
    (hexOfBytes (hmacSha256 key msg)).length = 64 := by
  rw [hexOfBytes_length, hmacSha256_length]

/-- C4: for every signing call the string to sign is
`"AWS4-HMAC-SHA256" \n amzDate \n credentialScope \n
hex(SHA256(canonicalRequest))`, the credential scope is
`dateStamp/region/execute-api/aws4_request`, and the signature is the
64-character lowercase hex HMAC-SHA256 of the string to sign under the
derived signing key. -/
theorem claim_C4 (env : Env) (creds : Credentials) (clk : Clock)
    (path rp body d ak sk : String)
    (hd : (pySplit (env.amc_endpoint ++ path) '/').get? 2 = some d)
    (hak : creds.access_key = some ak) (hsk : creds.secret_key = some sk) :
    delete env creds clk path = .ok (deleteCall env creds clk path d ak sk)
    ∧ (deleteCall env creds clk path d ak sk).credential_scope =
        clk.datestamp ++ "/" ++ env.aws_region ++ "/" ++ "execute-api" ++ "/"
          ++ "aws4_request"
    ∧ (deleteCall env creds clk path d ak sk).string_to_sign =
        "AWS4-HMAC-SHA256" ++ "\n" ++ clk.amzdate ++ "\n"
          ++ (deleteCall env creds clk path d ak sk).credential_scope ++ "\n"
          ++ hexOfBytes (sha256 (utf8
              (deleteCall env creds clk path d ak sk).canonical_request))
    ∧ (deleteCall env creds clk path d ak sk).signing_key =
        get_signature_key sk clk.datestamp env.aws_region "execute-api"
    ∧ (deleteCall env creds clk path d ak sk).signature =
        hexOfBytes (hmacSha256
          (deleteCall env creds clk path d ak sk).signing_key
          (utf8 (deleteCall env creds clk path d ak sk).string_to_sign))
    ∧ (deleteCall env creds clk path d ak sk).signature.length = 64
    ∧ (deleteCall env creds clk path d ak sk).signature.data.all
        isLowerHexChar = true
    ∧ get env creds clk path rp = .ok (getCall env creds clk path rp d ak sk)
    ∧ (getCall env creds clk path rp d ak sk).credential_scope =
        clk.datestamp ++ "/" ++ env.aws_region ++ "/" ++ "execute-api" ++ "/"
          ++ "aws4_request"
    ∧ (getCall env creds clk path rp d ak sk).string_to_sign =
        "AWS4-HMAC-SHA256" ++ "\n" ++ clk.amzdate ++ "\n"
          ++ (getCall env creds clk path rp d ak sk).credential_scope ++ "\n"
          ++ hexOfBytes (sha256 (utf8
              (getCall env creds clk path rp d ak sk).canonical_request))
    ∧ (getCall env creds clk path rp d ak sk).signing_key =
        get_signature_key sk clk.datestamp env.aws_region "execute-api"
    ∧ (getCall env creds clk path rp d ak sk).signature =
        hexOfBytes (hmacSha256 (getCall env creds clk path rp d ak sk).signing_key
          (utf8 (getCall env creds clk path rp d ak sk).string_to_sign))
    ∧ (getCall env creds clk path rp d ak sk).signature.length = 64
    ∧ (getCall env creds clk path rp d ak sk).signature.data.all
        isLowerHexChar = true
    ∧ post env creds clk path body =
        .ok (postCall env creds clk path body d ak sk)
    ∧ (postCall env creds clk path body d ak sk).credential_scope =
        clk.datestamp ++ "/" ++ env.aws_region ++ "/" ++ "execute-api" ++ "/"
          ++ "aws4_request"
    ∧ (postCall env creds clk path body d ak sk).string_to_sign =
        "AWS4-HMAC-SHA256" ++ "\n" ++ clk.amzdate ++ "\n"
          ++ (postCall env creds clk path body d ak sk).credential_scope ++ "\n"
          ++ hexOfBytes (sha256 (utf8
              (postCall env creds clk path body d ak sk).canonical_request))
    ∧ (postCall env creds clk path body d ak sk).signing_key =
        get_signature_key sk clk.datestamp env.aws_region "execute-api"
    ∧ (postCall env creds clk path body d ak sk).signature =
        hexOfBytes (hmacSha256
          (postCall env creds clk path body d ak sk).signing_key
          (utf8 (postCall env creds clk path body d ak sk).string_to_sign))
    ∧ (postCall env creds clk path body d ak sk).signature.length = 64
    ∧ (postCall env creds clk path body d ak sk).signature.data.all
        isLowerHexChar = true :=
  ⟨delete_ok env creds clk path d ak sk hd hak hsk, rfl, rfl, rfl, rfl,
    hexHmac_length _ _, hexOfBytes_lower _,
    get_ok env creds clk path rp d ak sk hd hak hsk, rfl, rfl, rfl, rfl,
    hexHmac_length _ _, hexOfBytes_lower _,
    post_ok env creds clk path body d ak sk hd hak hsk, rfl, rfl, rfl, rfl,
    hexHmac_length _ _, hexOfBytes_lower _⟩

/-- C4 witness: a concrete call satisfying the hypotheses of `claim_C4`. -/
theorem claim_C4_witness :
    (pySplit (sampleEnv.amc_endpoint ++ "") '/').get? 2 = some "h"
    ∧ sampleCreds.access_key = some "AKIDEXAMPLE"
    ∧ sampleCreds.secret_key = some "SECRET"
    ∧ (deleteCall sampleEnv sampleCreds sampleClock "" "h" "AKIDEXAMPLE"
        "SECRET").signature.length = 64 :=
  ⟨by decide, rfl, rfl,
    (claim_C4 sampleEnv sampleCreds sampleClock "" "" "{}" "h" "AKIDEXAMPLE"
      "SECRET" (by decide) rfl rfl).2.2.2.2.2.1⟩

/-- C5: the Authorization header value is
`<algorithm> Credential=<access_key>/<scope>, SignedHeaders=<signed_headers>,
Signature=<signature>` with the constant signed-headers list
`host;x-amz-date;x-amz-security-token`, and the header set handed to
`send_request` is exactly Authorization, x-amz-date, x-amz-security-token
and the two static solution-name/version headers. -/
theorem claim_C5 (env : Env) (creds : Credentials) (clk : Clock)
    (path rp body d ak sk : String)
    (hd : (pySplit (env.amc_endpoint ++ path) '/').get? 2 = some d)
    (hak : creds.access_key = some ak) (hsk : creds.secret_key = some sk) :
    delete env creds clk path = .ok (deleteCall env creds clk path d ak sk)
    ∧ (deleteCall env creds clk path d ak sk).signed_headers =
        "host;x-amz-date;x-amz-security-token"
    ∧ (deleteCall env creds clk path d ak sk).authorization_header =
        "AWS4-HMAC-SHA256" ++ " Credential=" ++ ak ++ "/"
          ++ (deleteCall env creds clk path d ak sk).credential_scope
          ++ ", SignedHeaders=" ++ SIGNED_HEADERS ++ ", Signature="
          ++ (deleteCall env creds clk path d ak sk).signature
    ∧ (deleteCall env creds clk path d ak sk).headers =
        [("Authorization",
            (deleteCall env creds clk path d ak sk).authorization_header),
          ("x-amz-date", clk.amzdate),
          ("x-amz-security-token", creds.session_token),
          ("x-amzn-service-name", env.solution_name),
          ("x-amzn-service-version", env.solution_version)]
    ∧ get env creds clk path rp = .ok (getCall env creds clk path rp d ak sk)
    ∧ (getCall env creds clk path rp d ak sk).signed_headers =
        "host;x-amz-date;x-amz-security-token"
    ∧ (getCall env creds clk path rp d ak sk).authorization_header =
        "AWS4-HMAC-SHA256" ++ " Credential=" ++ ak ++ "/"
          ++ (getCall env creds clk path rp d ak sk).credential_scope
          ++ ", SignedHeaders=" ++ SIGNED_HEADERS ++ ", Signature="
          ++ (getCall env creds clk path rp d ak sk).signature
    ∧ (getCall env creds clk path rp d ak sk).headers =
        [("Authorization",
            (getCall env creds clk path rp d ak sk).authorization_header),
          ("x-amz-date", clk.amzdate),
          ("x-amz-security-token", creds.session_token),
          ("x-amzn-service-name", env.solution_name),
          ("x-amzn-service-version", env.solution_version)]
    ∧ post env creds clk path body =
        .ok (postCall env creds clk path body d ak sk)
    ∧ (postCall env creds clk path body d ak sk).signed_headers =
        "host;x-amz-date;x-amz-security-token"
    ∧ (postCall env creds clk path body d ak sk).authorization_header =
        "AWS4-HMAC-SHA256" ++ " Credential=" ++ ak ++ "/"
          ++ (postCall env creds clk path body d ak sk).credential_scope
          ++ ", SignedHeaders=" ++ SIGNED_HEADERS ++ ", Signature="
          ++ (postCall env creds clk path body d ak sk).signature
    ∧ (postCall env creds clk path body d ak sk).headers =
        [("Authorization",
            (postCall env creds clk path body d ak sk).authorization_header),
          ("x-amz-date", clk.amzdate),
          ("x-amz-security-token", creds.session_token),
          ("x-amzn-service-name", env.solution_name),
          ("x-amzn-service-version", env.solution_version)] :=
  ⟨delete_ok env creds clk path d ak sk hd hak hsk, rfl, rfl, rfl,
    get_ok env creds clk path rp d ak sk hd hak hsk, rfl, rfl, rfl,
    post_ok env creds clk path body d ak sk hd hak hsk, rfl, rfl, rfl⟩

/-- C5 witness: a concrete call satisfying the hypotheses of `claim_C5`. -/
theorem claim_C5_witness :
    (pySplit (sampleEnv.amc_endpoint ++ "") '/').get? 2 = some "h"
    ∧ sampleCreds.access_key = some "AKIDEXAMPLE"
    ∧ sampleCreds.secret_key = some "SECRET"
    ∧ (deleteCall sampleEnv sampleCreds sampleClock "" "h" "AKIDEXAMPLE"
        "SECRET").signed_headers = "host;x-amz-date;x-amz-security-token" :=
  ⟨by decide, rfl, rfl,
    (claim_C5 sampleEnv sampleCreds sampleClock "" "" "{}" "h" "AKIDEXAMPLE"
      "SECRET" (by decide) rfl rfl).2.1⟩

/-- C6: for `get` the canonical query string is the caller-supplied
pre-encoded `request_parameters` and the dispatched URL is
`endpoint + "?" + canonicalQueryString`; for `post` and `delete` the
canonical query string is empty and the dispatched URL is the endpoint
unmodified, with the POST body (when non-empty) attached as-is by
`send_request` and no body for `get`/`delete`. -/
theorem claim_C6 (env : Env) (creds : Credentials) (clk : Clock)
    (path rp body d ak sk : String)
    (hd : (pySplit (env.amc_endpoint ++ path) '/').get? 2 = some d)
    (hak : creds.access_key = some ak) (hsk : creds.secret_key = some sk) :
    get env creds clk path rp = .ok (getCall env creds clk path rp d ak sk)
    ∧ (getCall env creds clk path rp d ak sk).canonical_querystring = rp
    ∧ (getCall env creds clk path rp d ak sk).request_url =
        env.amc_endpoint ++ path ++ "?" ++ rp
    ∧ (getCall env creds clk path rp d ak sk).data = none
    ∧ delete env creds clk path = .ok (deleteCall env creds clk path d ak sk)
    ∧ (deleteCall env creds clk path d ak sk).canonical_querystring = ""
    ∧ (deleteCall env creds clk path d ak sk).request_url =
        env.amc_endpoint ++ path
    ∧ (deleteCall env creds clk path d ak sk).data = none
    ∧ post env creds clk path body =
        .ok (postCall env creds clk path body d ak sk)
    ∧ (postCall env creds clk path body d ak sk).canonical_querystring = ""
    ∧ (postCall env creds clk path body d ak sk).request_url =
        env.amc_endpoint ++ path
    ∧ (postCall env creds clk path body d ak sk).data = some body
    ∧ (body ≠ "" →
        sentBody (postCall env creds clk path body d ak sk).data = some body) :=
  ⟨get_ok env creds clk path rp d ak sk hd hak hsk, rfl, rfl, rfl,
    delete_ok env creds clk path d ak sk hd hak hsk, rfl, rfl, rfl,
    post_ok env creds clk path body d ak sk hd hak hsk, rfl, rfl, rfl,
    fun hb => by
      show sentBody (some body) = some body
      simp [sentBody, hb]⟩

/-- C6 witness: a concrete call satisfying the hypotheses of `claim_C6`. -/
theorem claim_C6_witness :
    (pySplit (sampleEnv.amc_endpoint ++ "") '/').get? 2 = some "h"
    ∧ sampleCreds.access_key = some "AKIDEXAMPLE"
    ∧ sampleCreds.secret_key = some "SECRET"
    ∧ ("{}" : String) ≠ ""
    ∧ (getCall sampleEnv sampleCreds sampleClock "" "a=b" "h" "AKIDEXAMPLE"
        "SECRET").request_url = sampleEnv.amc_endpoint ++ "" ++ "?" ++ "a=b" :=
  ⟨by decide, rfl, rfl, by decide,
    (claim_C6 sampleEnv sampleCreds sampleClock "" "a=b" "{}" "h" "AKIDEXAMPLE"
      "SECRET" (by decide) rfl rfl).2.2.1⟩

/-- C7 counterexample: with both keys present but equal to the empty
string, `delete` does NOT abort — the `is None` checks pass and a signed
request is dispatched — refuting the claim that empty credentials abort
before dispatch. -/
theorem claim_C7_counterexample :
    delete sampleEnv sampleCredsEmpty sampleClock "" =
      .ok (deleteCall sampleEnv sampleCredsEmpty sampleClock "" "h" "" "") :=
  rfl

/-- C7 (amended): only when the access key or the secret key is Python
`None` does the operation abort before any signing or dispatch (the
`sys.exit()` path, surfacing no request); keys that are present but empty
strings are not rejected. -/
theorem claim_C7 (env : Env) (creds : Credentials) (clk : Clock)
    (path rp body d : String)
    (hd : (pySplit (env.amc_endpoint ++ path) '/').get? 2 = some d)
    (h : creds.access_key = none ∨ creds.secret_key = none) :
    delete env creds clk path = .error SigError.noAccessKey
    ∧ get env creds clk path rp = .error SigError.noAccessKey
    ∧ post env creds clk path body = .error SigError.noAccessKey := by
  unfold delete get post
  rw [hd]
  cases hA : creds.access_key with
  | none => cases hS : creds.secret_key <;> exact ⟨rfl, rfl, rfl⟩
  | some a =>
    cases hS : creds.secret_key with
    | none => exact ⟨rfl, rfl, rfl⟩
    | some s =>
      exfalso
      rcases h with h | h
      · rw [hA] at h
        exact Option.noConfusion h
      · rw [hS] at h
        exact Option.noConfusion h

/-- C7 witness: a concrete call satisfying the hypotheses of `claim_C7`. -/
theorem claim_C7_witness :
    (pySplit (sampleEnv.amc_endpoint ++ "") '/').get? 2 = some "h"
    ∧ (sampleCredsNone.access_key = none ∨ sampleCredsNone.secret_key = none)
    ∧ delete sampleEnv sampleCredsNone sampleClock "" =
        .error SigError.noAccessKey :=
  ⟨by decide, Or.inl rfl,
    (claim_C7 sampleEnv sampleCredsNone sampleClock "" "" "{}" "h" (by decide)
      (Or.inl rfl)).1⟩

/-- C8: when the endpoint cannot be split into scheme, host and path
(fewer than three `/`-separated parts, so `endpoint.split("/")[2]` raises
`IndexError` — the spec's EncodingError), every operation aborts before
dispatching any request. -/
theorem claim_C8 (env : Env) (creds : Credentials) (clk : Clock)
    (path rp body : String)
    (hd : (pySplit (env.amc_endpoint ++ path) '/').get? 2 = none) :
    delete env creds clk path = .error SigError.indexError
    ∧ get env creds clk path rp = .error SigError.indexError
    ∧ post env creds clk path body = .error SigError.indexError := by
  unfold delete get post
  rw [hd]
  exact ⟨rfl, rfl, rfl⟩

/-- C8 witness: a concrete malformed endpoint satisfying the hypothesis of
`claim_C8`. -/
theorem claim_C8_witness :
    (pySplit (sampleEnvBad.amc_endpoint ++ "") '/').get? 2 = none
    ∧ delete sampleEnvBad sampleCreds sampleClock "" =
        .error SigError.indexError :=
  ⟨by decide,
    (claim_C8 sampleEnvBad sampleCreds sampleClock "" "" "{}" (by decide)).1⟩

/-- C9: signing key derivation is a pure function of
(secretKey, dateStamp, region, service) — two evaluations on the same
inputs give the identical result, there is no state parameter at all —
and the result is a 32-byte key, each byte below 256. -/
theorem claim_C9 (key date_stamp region_name service_name : String) :
    get_signature_key key date_stamp region_name service_name =
      get_signature_key key date_stamp region_name service_name
    ∧ (get_signature_key key date_stamp region_name service_name).length = 32
    ∧ ∀ b ∈ get_signature_key key date_stamp region_name service_name,
        b < 256 :=
  ⟨rfl, hmacSha256_length _ _, fun b hb => sha256_byte_lt _ b hb⟩

/-- C9 witness: `claim_C9` at a concrete input. -/
theorem claim_C9_witness :
    (get_signature_key "SECRET" "20150830" "us-east-1" "execute-api").length
      = 32 :=
  (claim_C9 "SECRET" "20150830" "us-east-1" "execute-api").2.1

end AmcSigV4

namespace WebsiteHelper

/-- C10: once `copy_source` has extracted the three event fields, it always
ends by sending a SUCCESS response — so when the copy raises and the inner
handler has already sent FAILED, the run emits FAILED followed by SUCCESS
rather than FAILED alone. -/
theorem claim_C10 (ev : CfnEvent) (copyRaises : Bool) (b1 b2 b3 : String)
    (h1 : ev.websiteCodeBucket = some b1)
    (h2 : ev.websiteCodePrefix = some b2)
    (h3 : ev.deploymentBucket = some b3) :
    (copy_source ev copyRaises).getLast? = some CfnStatus.SUCCESS
    ∧ (copyRaises = true →
        copy_source ev copyRaises = [CfnStatus.FAILED, CfnStatus.SUCCESS]) := by
  unfold copy_source
  rw [h1, h2, h3]
  cases copyRaises with
  | false => exact ⟨rfl, fun hr => Bool.noConfusion hr⟩
  | true => exact ⟨rfl, fun hr => rfl⟩

/-- C10 witness: a concrete event with all fields present and a raising
copy, satisfying the hypotheses of `claim_C10`. -/
theorem claim_C10_witness :
    sampleEvent.websiteCodeBucket = some "code-bucket"
    ∧ sampleEvent.websiteCodePrefix = some "web"
    ∧ sampleEvent.deploymentBucket = some "site.example.com"
    ∧ copy_source sampleEvent true = [CfnStatus.FAILED, CfnStatus.SUCCESS] :=
  ⟨rfl, rfl, rfl,
    (claim_C10 sampleEvent true "code-bucket" "web" "site.example.com"
      rfl rfl rfl).2 rfl⟩

end WebsiteHelper
